import Mathlib

/-!
Verification of the dotcraft manifest-driven file-materialization tool.

The Rust sources (src/main.rs, src/colors.rs, src/cli.rs, src/helper.rs,
src/error.rs) are shallowly embedded below.  Filesystem state for one
destination path is modelled by `DestState`; external effects (the real
filesystem walk, the image loader, the material-colors theme builder, the
`upon` template engine, subprocess execution) are modelled as oracle
fields of the `Ext` structure, since their behaviour lives outside this
repository.  Pure control flow and data manipulation are translated
directly from the source.
-/

namespace Dotcraft

/-! ## Symlink engine (src/main.rs, `symlink_file`, lines 380-451)

One destination path is in one of these states.  A symlink entry carries
the canonical path its resolution yields, or `none` when resolution fails
(a dangling/broken link). -/

inductive DestState where
  | absent
  | regularFile
  | directory
  | symlink (resolved : Option String)
deriving DecidableEq, Repr

/-- Filesystem mutations the engine can perform on the destination path. -/
inductive FsAction where
  | removeFile
  | createDirAll
  | createSymlink (target : String)
deriving DecidableEq, Repr

/-- The log lines `symlink_file` can emit (src/main.rs lines 391-449). -/
inductive LogMsg where
  | alreadyExistsRemoving
  | upToDate
  | resolveManuallySymlink
  | resolveManuallyFile
  | brokenSymlinkRemoving
  | symlinked
deriving DecidableEq, Repr

/-- `Path::exists` follows symlinks: a broken symlink does not "exist". -/
def destExists : DestState → Bool
  | .regularFile => true
  | .directory => true
  | .symlink (some _) => true
  | _ => false

/-- `Path::is_symlink` is true for any symlink entry, broken or not. -/
def destIsSymlink : DestState → Bool
  | .symlink _ => true
  | _ => false

/-- `fs::remove_file` unlinks files and symlink entries but fails on a
directory (EISDIR); it never removes directories. -/
def removeFileResult : DestState → Except String DestState
  | .directory => .error "could not remove file: Is a directory"
  | _ => .ok .absent

/-- `Path::canonicalize` on the destination: resolves a healthy symlink to
its canonical origin, fails otherwise. `symlink_file` only calls it when
the destination exists and is a symlink. -/
def destCanonicalize : DestState → Except String String
  | .symlink (some origin) => .ok origin
  | _ => .error "No such file or directory"

/-- `std::os::unix::fs::symlink`: creates the link when the destination
path is free, fails with EEXIST otherwise. -/
def symlinkUnixResult (target : String) : DestState → Except String DestState
  | .absent => .ok (.symlink (some target))
  | _ => .error "could not symlink: File exists"

/-- The common tail of `symlink_file` (src/main.rs lines 439-450): create
the symlink unless this is a dry run, then log "Symlinked". -/
def symlinkTail (target : String) (st : DestState) (dry : Bool)
    (acts : List FsAction) (logs : List LogMsg) :
    Except String (DestState × List FsAction × List LogMsg) :=
  if dry then .ok (st, acts, logs ++ [.symlinked])
  else
    match symlinkUnixResult target st with
    | .error e => .error e
    | .ok st1 => .ok (st1, acts ++ [.createSymlink target], logs ++ [.symlinked])

/-- `symlink_file` (src/main.rs lines 380-451).  `target` is the already
canonicalized target path (`symlink_dir_all` canonicalizes it before
every call, so `target.canonicalize()` in the up-to-date comparison is
the identity).  Returns the final destination state together with the
mutations performed and the log lines emitted. -/
def symlink_file (target : String) (st : DestState) (force dry : Bool) :
    Except String (DestState × List FsAction × List LogMsg) :=
  if destExists st then
    if force then
      if dry then symlinkTail target st dry [] [.alreadyExistsRemoving]
      else
        match removeFileResult st with
        | .error e => .error e
        | .ok st1 => symlinkTail target st1 dry [.removeFile] [.alreadyExistsRemoving]
    else if destIsSymlink st then
      match destCanonicalize st with
      | .error e => .error e
      | .ok origin =>
        if target = origin then .ok (st, [], [.upToDate])
        else .ok (st, [], [.resolveManuallySymlink])
    else .ok (st, [], [.resolveManuallyFile])
  else if destIsSymlink st then
    if dry then symlinkTail target st dry [] [.brokenSymlinkRemoving]
    else
      match removeFileResult st with
      | .error e => .error e
      | .ok st1 => symlinkTail target st1 dry [.removeFile] [.brokenSymlinkRemoving]
  else if dry then symlinkTail target st dry [] []
  else symlinkTail target st dry [.createDirAll] []

/-! ## Paths (std::path as used by the tool)

A path is a flag saying whether it is absolute plus its list of normal
components; `Path::strip_prefix("~")` succeeds exactly when the path is
relative and its first component is the single-character component `~`. -/

structure RPath where
  absolute : Bool
  components : List String
deriving DecidableEq, Repr

def RPath.display (p : RPath) : String :=
  (if p.absolute then "/" else "") ++ String.intercalate "/" p.components

/-- `resolve_home_dir` (src/main.rs lines 333-343).  `home` is the value
of the HOME environment variable, read on every call: the `env::var`
lookup is the first statement, so its absence fails the call before the
path is even inspected. -/
def resolve_home_dir (home : Option RPath) (p : RPath) : Except String RPath :=
  match home with
  | none => .error "could not find home directory: environment variable not found"
  | some h =>
    match p.components with
    | [] => .ok p
    | c :: rest =>
      if p.absolute = false ∧ c = "~" then .ok ⟨h.absolute, h.components ++ rest⟩
      else .ok p

/-! ## Template context (src/main.rs `TemplateContext = HashMap<String, String>`)

The hash map is modelled as an association list whose `insert` replaces
any previous binding of the key, so lookup sees exactly the most recent
insertion, as with `HashMap::insert`. -/

abbrev TemplateContext := List (String × String)

def ctxInsert (k v : String) (ctx : TemplateContext) : TemplateContext :=
  (k, v) :: ctx.filter (fun p => p.1 != k)

/-- Lookup in an association list, first binding wins (for maps built with
`ctxInsert` the first binding is the most recent one). -/
def assocLookup {β : Type} (k : String) : List (String × β) → Option β
  | [] => none
  | (a, v) :: rest => if k = a then some v else assocLookup k rest

def ctxLookup (k : String) (ctx : TemplateContext) : Option String :=
  assocLookup k ctx

/-- `a.or b` on options, an explicit helper for lookup reasoning. -/
def oOr {β : Type} : Option β → Option β → Option β
  | some v, _ => some v
  | none, b => b

/-! ## Manifest data model (src/main.rs lines 17-54) -/

structure Entry where
  target : Option RPath
  dest : RPath
  template : Option RPath
  recursive : Bool
  pre_hooks : Option (List String)
  post_hooks : Option (List String)
deriving DecidableEq, Repr

structure ManifestOpt where
  wallpaper : Option RPath
  theme : String
  variant : String
deriving DecidableEq, Repr

/-- `entries: HashMap<String, Vec<Entry>>`, modelled as an association
list with unique names (manifest entry names are unique). -/
structure Manifest where
  options : ManifestOpt
  /-- the manifest's `variables` table (`variables` is a reserved word in
  Lean, hence the shorter field name) -/
  vars : Option (List (String × String))
  entries : List (String × List Entry)
deriving DecidableEq, Repr

/-- `has_templates` (src/main.rs lines 322-331): true when any entry
anywhere in the manifest declares a template. -/
def has_templates (m : Manifest) : Bool :=
  m.entries.any (fun p => p.2.any (fun e => e.template.isSome))

/-! ## Colors (src/colors.rs) -/

structure Argb where
  alpha : Nat
  red : Nat
  green : Nat
  blue : Nat
deriving DecidableEq, Repr

inductive Variant where
  | monochrome
  | neutral
  | tonalSpot
  | vibrant
  | expressive
  | fidelity
  | content
  | rainbow
  | fruitSalad
deriving DecidableEq, Repr

def validVariantNames : List String :=
  ["monochrome", "neutral", "tonal_spot", "vibrant", "expressive", "fidelity",
   "content", "rainbow", "fruit_salad"]

def invalidVariantMsg (variant : String) : String :=
  "invalid variant " ++ variant ++
    "\nPossible values: \"monochrome\", \"neutral\", \"tonal_spot\", \"vibrant\", \"expressive\", \"fidelity\", \"content\", \"rainbow\", \"fruit_salad\""

def invalidThemeMsg (theme : String) : String :=
  "invalid theme " ++ theme ++ "\nPossible values: \"dark\", \"light\""

/-- The `match variant` of src/colors.rs lines 35-46: exactly nine names
are accepted, anything else errors with the enumeration message. -/
def parseVariant (variant : String) : Except String Variant :=
  if variant = "monochrome" then .ok .monochrome
  else if variant = "neutral" then .ok .neutral
  else if variant = "tonal_spot" then .ok .tonalSpot
  else if variant = "vibrant" then .ok .vibrant
  else if variant = "expressive" then .ok .expressive
  else if variant = "fidelity" then .ok .fidelity
  else if variant = "content" then .ok .content
  else if variant = "rainbow" then .ok .rainbow
  else if variant = "fruit_salad" then .ok .fruitSalad
  else .error (invalidVariantMsg variant)

/-- The default 4-bit xterm ANSI reference colors (src/colors.rs lines
77-94), blended against the seed by `harmonize`. -/
def ansi16 : List (String × Argb) :=
  [("black", ⟨255, 0, 0, 0⟩),
   ("red", ⟨255, 205, 0, 0⟩),
   ("green", ⟨255, 0, 205, 0⟩),
   ("yellow", ⟨255, 205, 205, 0⟩),
   ("blue", ⟨255, 0, 0, 238⟩),
   ("magenta", ⟨255, 205, 0, 205⟩),
   ("cyan", ⟨255, 0, 205, 205⟩),
   ("white", ⟨255, 229, 229, 229⟩),
   ("bright_black", ⟨255, 127, 127, 127⟩),
   ("bright_red", ⟨255, 255, 0, 0⟩),
   ("bright_green", ⟨255, 0, 255, 0⟩),
   ("bright_yellow", ⟨255, 255, 255, 0⟩),
   ("bright_blue", ⟨255, 92, 92, 255⟩),
   ("bright_magenta", ⟨255, 255, 0, 255⟩),
   ("bright_cyan", ⟨255, 0, 255, 255⟩),
   ("bright_white", ⟨255, 255, 255, 255⟩)]

/-- Filesystem-visible effects of a whole run (template writes, symlink
work delegated to `symlink_dir_all`, hook executions). -/
inductive RunEvent where
  | fileWrite (dest : RPath) (content : String)
  | linkEvent (target dest : RPath)
  | hookEvent (cmd : String)
deriving DecidableEq, Repr

/-- Oracles for everything outside this repository: the HOME variable,
the real filesystem, the image quantizer (`image` + `quantette`), the
material-colors theme builder and `harmonize`, the `upon` template
engine (compile + render merged), the recursive `symlink_dir_all` walk
(whose leaf behaviour is modelled exactly by `symlink_file` above), and
subprocess execution for hooks. -/
structure Ext where
  home : Option RPath
  canonicalize : RPath → Except String RPath
  loadSeedColor : RPath → Except String Argb
  themeSchemes : Argb → Variant → (List (String × String)) × (List (String × String))
  themeSourceHex : Argb → Variant → String
  harmonizeHex : Argb → Argb → String
  readToString : RPath → Except String String
  render : String → TemplateContext → Except String String
  symlinkDirAll : RPath → RPath → Bool → Bool → Bool → Except String (List RunEvent)
  executeHook : String → Except String Unit

/-- Insert every role of the selected scheme half (src/colors.rs lines
52-68, loop body). -/
def insertScheme (scheme : List (String × String)) (ctx : TemplateContext) : TemplateContext :=
  scheme.foldl (fun c p => ctxInsert p.1 p.2 c) ctx

/-- `generate_terminal_ansi_colors` (src/colors.rs lines 75-99): each of
the 16 reference colors is harmonized with the seed and inserted. -/
def generate_terminal_ansi_colors (ext : Ext) (seed : Argb) (ctx : TemplateContext) :
    TemplateContext :=
  ansi16.foldl (fun c p => ctxInsert p.1 (ext.harmonizeHex p.2 seed) c) ctx

/-- `generate_material_colors` (src/colors.rs lines 7-73).  Returns the
(possibly partially extended) context together with the error, if any —
in Rust the context is a `&mut` parameter, so insertions performed before
an error persist. -/
def generate_material_colors (ext : Ext) (wallpaper_path : RPath) (theme variant : String)
    (ctx : TemplateContext) : TemplateContext × Option String :=
  match ext.loadSeedColor wallpaper_path with
  | .error e => (ctx, some e)
  | .ok seed =>
    match parseVariant variant with
    | .error e => (ctx, some e)
    | .ok v =>
      let ctx1 := ctxInsert "source_color" (ext.themeSourceHex seed v) ctx
      if theme = "dark" then
        let ctx2 := insertScheme (ext.themeSchemes seed v).1 ctx1
        let ctx3 := generate_terminal_ansi_colors ext seed ctx2
        (ctxInsert "theme" theme ctx3, none)
      else if theme = "light" then
        let ctx2 := insertScheme (ext.themeSchemes seed v).2 ctx1
        let ctx3 := generate_terminal_ansi_colors ext seed ctx2
        (ctxInsert "theme" theme ctx3, none)
      else (ctx1, some (invalidThemeMsg theme))

/-- Overlay the manifest's user `variables` (src/main.rs lines 81-85):
one `insert` per declared variable, performed after everything else. -/
def overlayVars : Option (List (String × String)) → TemplateContext → TemplateContext
  | none, ctx => ctx
  | some vs, ctx => vs.foldl (fun c p => ctxInsert p.1 p.2 c) ctx

def wallpaperNotSetMsg : String :=
  "could not generate color palette: wallpaper is not set."

/-- `init_template_context` (src/main.rs lines 58-87). -/
def init_template_context (ext : Ext) (ctx : TemplateContext) (m : Manifest) :
    TemplateContext × Option String :=
  match m.options.wallpaper with
  | some wallpaper =>
    match resolve_home_dir ext.home wallpaper with
    | .error e => (ctx, some e)
    | .ok p =>
      match ext.canonicalize p with
      | .error e => (ctx, some ("could not find " ++ wallpaper.display ++ ": " ++ e))
      | .ok wp =>
        match generate_material_colors ext wp m.options.theme m.options.variant
            (ctxInsert "wallpaper" wp.display ctx) with
        | (ctx2, some e) => (ctx2, some e)
        | (ctx2, none) => (overlayVars m.vars ctx2, none)
  | none =>
    if has_templates m then (ctx, some wallpaperNotSetMsg)
    else (overlayVars m.vars ctx, none)

/-! ## Template generation and orchestrator runs (src/main.rs
`generate_template` lines 453-489 and `entrypoint` lines 120-320) -/

/-- `generate_template`: resolve and canonicalize the template path,
resolve the destination, read, compile+render, then write unless dry.
Returns the writes performed and the error, if any. -/
def generate_template (ext : Ext) (dest template : RPath) (ctx : TemplateContext) (dry : Bool) :
    List RunEvent × Option String :=
  match resolve_home_dir ext.home template with
  | .error e => ([], some e)
  | .ok t0 =>
    match ext.canonicalize t0 with
    | .error e => ([], some ("could not find " ++ template.display ++ ": " ++ e))
    | .ok tpath =>
      match resolve_home_dir ext.home dest with
      | .error e => ([], some e)
      | .ok d =>
        match ext.readToString tpath with
        | .error e => ([], some ("could not read file " ++ tpath.display ++ ": " ++ e))
        | .ok data =>
          match ext.render data ctx with
          | .error e => ([], some e)
          | .ok rendered =>
            match d.components with
            | [] => ([], some ("could not access parent dir of " ++ d.display))
            | _ => if dry then ([], none) else ([.fileWrite d rendered], none)

/-- Execute a list of hook command lines in order, stopping at the first
failure (the `?` in the hook loops of `entrypoint`). -/
def runHooks (ext : Ext) : List String → List RunEvent × Option String
  | [] => ([], none)
  | cmd :: rest =>
    match ext.executeHook cmd with
    | .error err => ([], some err)
    | .ok _ =>
      let r := runHooks ext rest
      (RunEvent.hookEvent cmd :: r.1, r.2)

/-- One entry of a `sync` run (body of the entry loops in the `Sync` arm
of `entrypoint`): pre-hooks, symlinking, template generation (with a
fresh `init_template_context` in the name-filtered branch), post-hooks.
Returns the threaded context, the events and the error, if any. -/
def runSyncEntry (ext : Ext) (m : Manifest) (name : String) (force dry withInit : Bool)
    (ctx : TemplateContext) (e : Entry) : TemplateContext × List RunEvent × Option String :=
  let pre := match e.pre_hooks with
    | none => ([], none)
    | some cmds => if dry then ([], none) else runHooks ext cmds
  match pre.2 with
  | some err => (ctx, pre.1, some err)
  | none =>
    let link : List RunEvent × Option String := match e.target with
      | none => ([], none)
      | some target =>
        match ext.symlinkDirAll target e.dest force dry e.recursive with
        | .error err =>
          ([], some ("something went wrong while symlinking " ++ name ++ ":\n    " ++ err))
        | .ok evs => (evs, none)
    match link.2 with
    | some err => (ctx, pre.1 ++ link.1, some err)
    | none =>
      match e.template with
      | none =>
        let post := match e.post_hooks with
          | none => ([], none)
          | some cmds => if dry then ([], none) else runHooks ext cmds
        (ctx, pre.1 ++ link.1 ++ post.1, post.2)
      | some tmpl =>
        let ini := if withInit then init_template_context ext ctx m else (ctx, none)
        match ini.2 with
        | some err => (ini.1, pre.1 ++ link.1, some err)
        | none =>
          let g := generate_template ext e.dest tmpl ini.1 dry
          match g.2 with
          | some err =>
            (ini.1, pre.1 ++ link.1 ++ g.1,
             some ("something went wrong while generating " ++ name ++ ":\n    " ++ err))
          | none =>
            let post := match e.post_hooks with
              | none => ([], none)
              | some cmds => if dry then ([], none) else runHooks ext cmds
            (ini.1, pre.1 ++ link.1 ++ g.1 ++ post.1, post.2)

def runSyncEntries (ext : Ext) (m : Manifest) (name : String) (force dry withInit : Bool) :
    TemplateContext → List Entry → List RunEvent × Option String
  | _, [] => ([], none)
  | ctx, e :: rest =>
    let r := runSyncEntry ext m name force dry withInit ctx e
    match r.2.2 with
    | some err => (r.2.1, some err)
    | none =>
      let r2 := runSyncEntries ext m name force dry withInit r.1 rest
      (r.2.1 ++ r2.1, r2.2)

def runSyncAll (ext : Ext) (m : Manifest) (force dry : Bool) (ctx : TemplateContext) :
    List (String × List Entry) → List RunEvent × Option String
  | [] => ([], none)
  | (name, es) :: rest =>
    let r := runSyncEntries ext m name force dry false ctx es
    match r.2 with
    | some err => (r.1, some err)
    | none =>
      let r2 := runSyncAll ext m force dry ctx rest
      (r.1 ++ r2.1, r2.2)

/-- The `Sync` arm of `entrypoint` (src/main.rs lines 129-232): with a
name filter, an unknown name is "could not find NAME"; without one, the
context is built once up front when any entry has a template. -/
def syncRun (ext : Ext) (m : Manifest) (force dry : Bool) (nameFilter : Option String) :
    List RunEvent × Option String :=
  match nameFilter with
  | some name =>
    match assocLookup name m.entries with
    | some entries => runSyncEntries ext m name force dry true [] entries
    | none => ([], some ("could not find " ++ name))
  | none =>
    let ini := if has_templates m then init_template_context ext [] m else ([], none)
    match ini.2 with
    | some err => ([], some err)
    | none => runSyncAll ext m force dry ini.1 m.entries

def runLinkEntries (ext : Ext) (name : String) (force dry : Bool) :
    List Entry → List RunEvent × Option String
  | [] => ([], none)
  | e :: rest =>
    match e.target with
    | none => runLinkEntries ext name force dry rest
    | some target =>
      match ext.symlinkDirAll target e.dest force dry e.recursive with
      | .error err =>
        ([], some ("something went wrong while symlinking " ++ name ++ ":\n    " ++ err))
      | .ok evs =>
        let r := runLinkEntries ext name force dry rest
        (evs ++ r.1, r.2)

def runLinkAll (ext : Ext) (force dry : Bool) :
    List (String × List Entry) → List RunEvent × Option String
  | [] => ([], none)
  | (name, es) :: rest =>
    let r := runLinkEntries ext name force dry es
    match r.2 with
    | some err => (r.1, some err)
    | none =>
      let r2 := runLinkAll ext force dry rest
      (r.1 ++ r2.1, r2.2)

/-- The `Link` arm of `entrypoint` (src/main.rs lines 233-270). -/
def linkRun (ext : Ext) (m : Manifest) (force dry : Bool) (nameFilter : Option String) :
    List RunEvent × Option String :=
  match nameFilter with
  | some name =>
    match assocLookup name m.entries with
    | some entries => runLinkEntries ext name force dry entries
    | none => ([], some ("could not find " ++ name))
  | none => runLinkAll ext force dry m.entries

def runGenEntries (ext : Ext) (m : Manifest) (name : String) (dry withInit : Bool) :
    TemplateContext → List Entry → List RunEvent × Option String
  | _, [] => ([], none)
  | ctx, e :: rest =>
    match e.template with
    | none => runGenEntries ext m name dry withInit ctx rest
    | some tmpl =>
      let ini := if withInit then init_template_context ext ctx m else (ctx, none)
      match ini.2 with
      | some err => ([], some err)
      | none =>
        let g := generate_template ext e.dest tmpl ini.1 dry
        match g.2 with
        | some err =>
          (g.1, some ("something went wrong while generating " ++ name ++ ":\n    " ++ err))
        | none =>
          let r := runGenEntries ext m name dry withInit ini.1 rest
          (g.1 ++ r.1, r.2)

def runGenAll (ext : Ext) (m : Manifest) (dry : Bool) (ctx : TemplateContext) :
    List (String × List Entry) → List RunEvent × Option String
  | [] => ([], none)
  | (name, es) :: rest =>
    let r := runGenEntries ext m name dry false ctx es
    match r.2 with
    | some err => (r.1, some err)
    | none =>
      let r2 := runGenAll ext m dry ctx rest
      (r.1 ++ r2.1, r2.2)

/-- The `Generate` arm of `entrypoint` (src/main.rs lines 271-316). -/
def generateRun (ext : Ext) (m : Manifest) (dry : Bool) (nameFilter : Option String) :
    List RunEvent × Option String :=
  match nameFilter with
  | some name =>
    match assocLookup name m.entries with
    | some entries => runGenEntries ext m name dry true [] entries
    | none => ([], some ("could not find " ++ name))
  | none =>
    let ini := if has_templates m then init_template_context ext [] m else ([], none)
    match ini.2 with
    | some err => ([], some err)
    | none => runGenAll ext m dry ini.1 m.entries

/-- A trivial oracle instance used by the concrete witness runs. -/
def extTest : Ext where
  home := some ⟨true, ["home", "user"]⟩
  canonicalize := fun p => .ok p
  loadSeedColor := fun _ => .ok ⟨255, 10, 20, 30⟩
  themeSchemes := fun _ _ => ([("primary", "111111")], [("primary", "222222")])
  themeSourceHex := fun _ _ => "0a141e"
  harmonizeHex := fun _ _ => "333333"
  readToString := fun _ => .ok "body"
  render := fun s _ => .ok s
  symlinkDirAll := fun _ _ _ _ _ => .ok []
  executeHook := fun _ => .ok ()

/-- A template-only entry used by the concrete witness manifests. -/
def entryT : Entry where
  target := none
  dest := ⟨false, ["out.conf"]⟩
  template := some ⟨false, ["tpl.conf"]⟩
  recursive := false
  pre_hooks := none
  post_hooks := none

/-- Witness manifest: no wallpaper, one templated entry. -/
def mT : Manifest where
  options := { wallpaper := none, theme := "dark", variant := "tonal_spot" }
  vars := none
  entries := [("cfg", [entryT])]

/-- Witness manifest: no wallpaper, no templates, one user variable. -/
def mP : Manifest where
  options := { wallpaper := none, theme := "dark", variant := "tonal_spot" }
  vars := some [("editor", "vim")]
  entries := [("cfg", [{ entryT with template := none }])]

/-- Witness manifest: no wallpaper, no templates, a user variable whose
name collides with a palette scheme role. -/
def mV : Manifest where
  options := { wallpaper := none, theme := "dark", variant := "tonal_spot" }
  vars := some [("primary", "uservalue")]
  entries := []

/-! ## Theorems -/

/-- Shared helper: with `force = false`, a destination that is a symlink
resolving to the (canonical) target is a pure no-op reported up to date. -/
lemma symlink_file_uptodate_noop (t : String) (dry : Bool) :
    symlink_file t (DestState.symlink (some t)) false dry =
      .ok (DestState.symlink (some t), [], [LogMsg.upToDate]) := by
  simp [symlink_file, destExists, destIsSymlink, destCanonicalize]

/-- C1 counterexample: with `force = true` and an existing directory at the
destination, `symlink_file` does not replace it with a symlink — it fails,
because `fs::remove_file` cannot remove a directory. -/
theorem c1_cex_force_directory_errors :
    symlink_file "t" DestState.directory true false =
      .error "could not remove file: Is a directory" := rfl

/-- C1 (amended): with `force = true` and an existing destination that is a
regular file or a symlink pointing at the wrong target, the operation
removes it, replaces it with a symlink whose target is the canonicalized
target path, and succeeds; an existing directory destination instead
makes the operation fail with a could-not-remove error (see the
counterexample). -/
theorem c1_force_replaces_file_or_wrong_symlink (t : String) (st : DestState)
    (h : st = DestState.regularFile ∨
      ∃ o, st = DestState.symlink (some o) ∧ o ≠ t) :
    symlink_file t st true false =
      .ok (DestState.symlink (some t),
           [FsAction.removeFile, FsAction.createSymlink t],
           [LogMsg.alreadyExistsRemoving, LogMsg.symlinked]) := by
  rcases h with rfl | ⟨o, rfl, -⟩ <;> rfl

/-- C1 witness: a concrete forced replacement of a regular file and of a
wrong-target symlink. -/
theorem c1_witness :
    (symlink_file "t" DestState.regularFile true false =
      .ok (DestState.symlink (some "t"),
           [FsAction.removeFile, FsAction.createSymlink "t"],
           [LogMsg.alreadyExistsRemoving, LogMsg.symlinked])) ∧
    (symlink_file "t" (DestState.symlink (some "u")) true false =
      .ok (DestState.symlink (some "t"),
           [FsAction.removeFile, FsAction.createSymlink "t"],
           [LogMsg.alreadyExistsRemoving, LogMsg.symlinked])) :=
  ⟨c1_force_replaces_file_or_wrong_symlink "t" DestState.regularFile (Or.inl rfl),
   c1_force_replaces_file_or_wrong_symlink "t" (DestState.symlink (some "u"))
     (Or.inr ⟨"u", rfl, by decide⟩)⟩

/-- C2: with `force = false` and an existing destination that is not a
symlink (a foreign regular file or directory), the operation performs no
mutation, leaves the destination state unchanged, creates no symlink, and
returns success with only a "resolve manually" warning. -/
theorem c2_noforce_foreign_untouched (t : String) (st : DestState) (dry : Bool)
    (h1 : destExists st = true) (h2 : destIsSymlink st = false) :
    symlink_file t st false dry = .ok (st, [], [LogMsg.resolveManuallyFile]) := by
  cases st with
  | absent => simp [destExists] at h1
  | regularFile => rfl
  | directory => rfl
  | symlink o => simp [destIsSymlink] at h2

/-- C2 witness: a concrete foreign regular file is left untouched. -/
theorem c2_witness :
    symlink_file "t" DestState.regularFile false false =
      .ok (DestState.regularFile, [], [LogMsg.resolveManuallyFile]) :=
  c2_noforce_foreign_untouched "t" DestState.regularFile false rfl rfl

/-- C3 counterexample: the claim's "no mutation on an up-to-date symlink,
hence zero mutations on a second identical sync" is false twice over.
With `force = true` an up-to-date destination symlink is not a no-op: it
is removed and relinked; and a successful template generation performs a
file write on every non-dry run, a second identical run included. -/
theorem c3_cex_force_uptodate_mutates :
    (symlink_file "t" (DestState.symlink (some "t")) true false =
      .ok (DestState.symlink (some "t"),
           [FsAction.removeFile, FsAction.createSymlink "t"],
           [LogMsg.alreadyExistsRemoving, LogMsg.symlinked])) ∧
    ([FsAction.removeFile, FsAction.createSymlink "t"] ≠ ([] : List FsAction)) ∧
    (generate_template extTest ⟨false, ["out.conf"]⟩ ⟨false, ["tpl.conf"]⟩ [] false =
      ([RunEvent.fileWrite ⟨false, ["out.conf"]⟩ "body"], none)) :=
  ⟨rfl, by decide, rfl⟩

/-- C3 (amended): with `force = false`, a destination symlink resolving to
the target's canonical path is a no-op reported as up to date; any
second `force = false` run of the per-path engine (after a first
successful run, whatever the initial state) performs zero mutations and
leaves the destination state unchanged; and every successful non-dry
template generation — a repeated run with identical inputs included —
writes its rendered output, so a sync that renders templates mutates the
filesystem on every run. -/
theorem c3_noforce_idempotent :
    (∀ (t : String) (dry : Bool),
      symlink_file t (DestState.symlink (some t)) false dry =
        .ok (DestState.symlink (some t), [], [LogMsg.upToDate])) ∧
    (∀ (t : String) (st s1 : DestState) (a1 : List FsAction) (l1 : List LogMsg),
      symlink_file t st false false = .ok (s1, a1, l1) →
      ∃ l2, symlink_file t s1 false false = .ok (s1, [], l2)) ∧
    (∀ (ext : Ext) (dest tmpl t0 tpath d : RPath) (ctx : TemplateContext)
        (data rendered : String),
      resolve_home_dir ext.home tmpl = .ok t0 →
      ext.canonicalize t0 = .ok tpath →
      resolve_home_dir ext.home dest = .ok d →
      ext.readToString tpath = .ok data →
      ext.render data ctx = .ok rendered →
      d.components ≠ [] →
      generate_template ext dest tmpl ctx false =
        ([RunEvent.fileWrite d rendered], none)) := by
  refine ⟨symlink_file_uptodate_noop, ?_, ?_⟩
  case refine_2 =>
    intro ext dest tmpl t0 tpath d ctx data rendered h1 h2 h3 h4 h5 hd
    cases hdc : d.components with
    | nil => exact absurd hdc hd
    | cons c rest => simp [generate_template, h1, h2, h3, h4, h5, hdc]
  case refine_1 =>
    intro t st s1 a1 l1 h
    cases st with
    | absent =>
      simp [symlink_file, destExists, destIsSymlink, symlinkTail, symlinkUnixResult] at h
      obtain ⟨h1, -, -⟩ := h
      exact ⟨[LogMsg.upToDate], by rw [← h1]; exact symlink_file_uptodate_noop t false⟩
    | regularFile =>
      simp [symlink_file, destExists, destIsSymlink] at h
      obtain ⟨h1, -, -⟩ := h
      exact ⟨[LogMsg.resolveManuallyFile], by rw [← h1]; rfl⟩
    | directory =>
      simp [symlink_file, destExists, destIsSymlink] at h
      obtain ⟨h1, -, -⟩ := h
      exact ⟨[LogMsg.resolveManuallyFile], by rw [← h1]; rfl⟩
    | symlink o =>
      cases o with
      | none =>
        simp [symlink_file, destExists, destIsSymlink, symlinkTail, symlinkUnixResult,
          removeFileResult] at h
        obtain ⟨h1, -, -⟩ := h
        exact ⟨[LogMsg.upToDate], by rw [← h1]; exact symlink_file_uptodate_noop t false⟩
      | some origin =>
        by_cases ht : t = origin
        · subst ht
          rw [symlink_file_uptodate_noop t false] at h
          obtain ⟨h1, -, -⟩ := by
            simpa using h
          exact ⟨[LogMsg.upToDate], by rw [← h1]; exact symlink_file_uptodate_noop t false⟩
        · simp [symlink_file, destExists, destIsSymlink, destCanonicalize, ht] at h
          obtain ⟨h1, -, -⟩ := h
          refine ⟨[LogMsg.resolveManuallySymlink], ?_⟩
          rw [← h1]
          simp [symlink_file, destExists, destIsSymlink, destCanonicalize, ht]

/-- C3 witness: a concrete up-to-date symlink is a no-op, the second run
after materializing from an absent destination performs nothing, and a
concrete successful template generation performs its write. -/
theorem c3_witness :
    (symlink_file "t" (DestState.symlink (some "t")) false false =
      .ok (DestState.symlink (some "t"), [], [LogMsg.upToDate])) ∧
    (∃ l2, symlink_file "t" (DestState.symlink (some "t")) false false =
      .ok (DestState.symlink (some "t"), [], l2)) ∧
    (generate_template extTest ⟨false, ["out2"]⟩ ⟨false, ["tpl2"]⟩ [("x", "y")] false =
      ([RunEvent.fileWrite ⟨false, ["out2"]⟩ "body"], none)) :=
  ⟨c3_noforce_idempotent.1 "t" false,
   c3_noforce_idempotent.2.1 "t" DestState.absent (DestState.symlink (some "t"))
     [FsAction.createDirAll, FsAction.createSymlink "t"] [LogMsg.symlinked] rfl,
   c3_noforce_idempotent.2.2 extTest ⟨false, ["out2"]⟩ ⟨false, ["tpl2"]⟩
     ⟨false, ["tpl2"]⟩ ⟨false, ["tpl2"]⟩ ⟨false, ["out2"]⟩ [("x", "y")] "body" "body"
     rfl rfl rfl rfl rfl (by decide)⟩

/-- C4: a destination that is a broken (dangling) symlink is removed and
replaced by a symlink to the canonicalized target, whatever the value of
`force`, and the operation succeeds. -/
theorem c4_broken_symlink_healed (t : String) (force : Bool) :
    symlink_file t (DestState.symlink none) force false =
      .ok (DestState.symlink (some t),
           [FsAction.removeFile, FsAction.createSymlink t],
           [LogMsg.brokenSymlinkRemoving, LogMsg.symlinked]) := rfl

/-! ### Context lookup lemmas -/

lemma assocLookup_filter_ne {k a : String} (h : k ≠ a) (ctx : List (String × String)) :
    assocLookup k (ctx.filter (fun p => p.1 != a)) = assocLookup k ctx := by
  induction ctx with
  | nil => rfl
  | cons p rest ih =>
    obtain ⟨b, w⟩ := p
    by_cases hb : b = a
    · subst hb
      simpa [assocLookup, h] using ih
    · simp [assocLookup, hb, ih]

lemma ctxLookup_ctxInsert (k a v : String) (ctx : TemplateContext) :
    ctxLookup k (ctxInsert a v ctx) = if k = a then some v else ctxLookup k ctx := by
  by_cases h : k = a
  · subst h; simp [ctxLookup, ctxInsert, assocLookup]
  · simp [ctxLookup, ctxInsert, assocLookup, h, assocLookup_filter_ne h]

lemma oOr_assoc {β : Type} (a b c : Option β) : oOr (oOr a b) c = oOr a (oOr b c) := by
  cases a <;> rfl

lemma assocLookup_append {β : Type} (k : String) (l1 l2 : List (String × β)) :
    assocLookup k (l1 ++ l2) = oOr (assocLookup k l1) (assocLookup k l2) := by
  induction l1 with
  | nil => rfl
  | cons p rest ih =>
    obtain ⟨a, v⟩ := p
    by_cases h : k = a
    · subst h; simp [assocLookup, oOr]
    · simp [assocLookup, h, ih]

lemma ctxLookup_foldl_insert (k : String) (vs : List (String × String)) (ctx : TemplateContext) :
    ctxLookup k (List.foldl (fun c p => ctxInsert p.1 p.2 c) ctx vs) =
      oOr (assocLookup k vs.reverse) (ctxLookup k ctx) := by
  induction vs generalizing ctx with
  | nil => rfl
  | cons p rest ih =>
    simp only [List.foldl_cons, List.reverse_cons]
    rw [ih, assocLookup_append, oOr_assoc]
    congr 1
    obtain ⟨a, v⟩ := p
    by_cases h : k = a
    · subst h; simp [ctxLookup_ctxInsert, assocLookup, oOr]
    · simp [ctxLookup_ctxInsert, assocLookup, h, oOr]

lemma ctxLookup_overlayVars (k v : String) (vs : List (String × String)) (ctx : TemplateContext)
    (h : assocLookup k vs.reverse = some v) :
    ctxLookup k (overlayVars (some vs) ctx) = some v := by
  simp [overlayVars, ctxLookup_foldl_insert, h, oOr]

/-! ### Context-building lemmas -/

lemma init_tc_missing (ext : Ext) (ctx : TemplateContext) (m : Manifest)
    (hw : m.options.wallpaper = none) (ht : has_templates m = true) :
    init_template_context ext ctx m = (ctx, some wallpaperNotSetMsg) := by
  simp [init_template_context, hw, ht]

lemma init_tc_skip (ext : Ext) (ctx : TemplateContext) (m : Manifest)
    (hw : m.options.wallpaper = none) (ht : has_templates m = false) :
    init_template_context ext ctx m = (overlayVars m.vars ctx, none) := by
  simp [init_template_context, hw, ht]

lemma runGenEntries_missing (ext : Ext) (m : Manifest) (name : String) (dry : Bool)
    (hw : m.options.wallpaper = none) (ht : has_templates m = true) :
    ∀ (es : List Entry) (ctx : TemplateContext),
      es.any (fun e => e.template.isSome) = true →
      runGenEntries ext m name dry true ctx es = ([], some wallpaperNotSetMsg) := by
  intro es
  induction es with
  | nil => intro ctx h; simp at h
  | cons e rest ih =>
    intro ctx h
    cases hte : e.template with
    | none =>
      rw [List.any_cons, hte] at h
      simp only [Option.isSome_none, Bool.false_or] at h
      simp [runGenEntries, hte, ih ctx h]
    | some tmpl =>
      simp [runGenEntries, hte, init_tc_missing ext ctx m hw ht]

/-- Any successful context build ends by overlaying the user variables on
top of whatever the palette inserted (src/main.rs lines 81-86). -/
lemma init_tc_ok_shape (ext : Ext) (ctx : TemplateContext) (m : Manifest)
    (ctx' : TemplateContext) (h : init_template_context ext ctx m = (ctx', none)) :
    ∃ base, ctx' = overlayVars m.vars base := by
  unfold init_template_context at h
  split at h
  · rename_i wallpaper hwp
    split at h
    · simp at h
    · rename_i p hp
      split at h
      · simp at h
      · rename_i wp hwpc
        split at h
        · simp at h
        · rename_i ctx2 hg
          obtain ⟨h1, -⟩ := Prod.mk.injEq .. ▸ h
          exact ⟨ctx2, h1.symm⟩
  · split at h
    · simp at h
    · obtain ⟨h1, -⟩ := Prod.mk.injEq .. ▸ h
      exact ⟨ctx, h1.symm⟩

/-- C5: with no wallpaper configured, (1) building the template context
fails with the missing-wallpaper error as soon as any entry in the
manifest declares a template, (2) an unfiltered generate run and (3) a
name-filtered generate run selecting a templated entry both fail with
that error having performed zero writes, and (4) with no templates
anywhere, context building succeeds, skipping palette generation and
performing only the user-variable overlay. -/
theorem c5_missing_wallpaper :
    (∀ (ext : Ext) (ctx : TemplateContext) (m : Manifest),
      m.options.wallpaper = none → has_templates m = true →
      init_template_context ext ctx m = (ctx, some wallpaperNotSetMsg)) ∧
    (∀ (ext : Ext) (m : Manifest) (dry : Bool),
      m.options.wallpaper = none → has_templates m = true →
      generateRun ext m dry none = ([], some wallpaperNotSetMsg)) ∧
    (∀ (ext : Ext) (m : Manifest) (dry : Bool) (name : String) (es : List Entry),
      m.options.wallpaper = none → has_templates m = true →
      assocLookup name m.entries = some es →
      es.any (fun e => e.template.isSome) = true →
      generateRun ext m dry (some name) = ([], some wallpaperNotSetMsg)) ∧
    (∀ (ext : Ext) (ctx : TemplateContext) (m : Manifest),
      m.options.wallpaper = none → has_templates m = false →
      init_template_context ext ctx m = (overlayVars m.vars ctx, none)) := by
  refine ⟨init_tc_missing, ?_, ?_, init_tc_skip⟩
  · intro ext m dry hw ht
    simp [generateRun, ht, init_tc_missing ext [] m hw ht]
  · intro ext m dry name es hw ht hl hany
    simp [generateRun, hl, runGenEntries_missing ext m name dry hw ht es [] hany]

/-- C5 witness: concrete manifests exercising all four conjuncts. -/
theorem c5_witness :
    (init_template_context extTest [] mT = ([], some wallpaperNotSetMsg)) ∧
    (generateRun extTest mT false none = ([], some wallpaperNotSetMsg)) ∧
    (generateRun extTest mT false (some "cfg") = ([], some wallpaperNotSetMsg)) ∧
    (init_template_context extTest [] mP = (overlayVars mP.vars [], none)) :=
  ⟨c5_missing_wallpaper.1 extTest [] mT rfl (by decide),
   c5_missing_wallpaper.2.1 extTest mT false rfl (by decide),
   c5_missing_wallpaper.2.2.1 extTest mT false "cfg" [entryT] rfl (by decide)
     (by decide) (by decide),
   c5_missing_wallpaper.2.2.2 extTest [] mP rfl (by decide)⟩

/-- C7: a user-declared variable always wins over any palette-derived key
of the same name, because the `variables` overlay is performed last: if
the context build succeeds, looking up a user-declared key yields the
user's value. -/
theorem c7_user_vars_override (ext : Ext) (ctx : TemplateContext) (m : Manifest)
    (vs : List (String × String)) (k v : String) (ctx' : TemplateContext)
    (hv : m.vars = some vs) (hk : assocLookup k vs.reverse = some v)
    (h : init_template_context ext ctx m = (ctx', none)) :
    ctxLookup k ctx' = some v := by
  obtain ⟨base, rfl⟩ := init_tc_ok_shape ext ctx m ctx' h
  rw [hv]
  exact ctxLookup_overlayVars k v vs base hk

/-- C7 witness: the user-declared `primary` survives in the built context. -/
theorem c7_witness :
    ctxLookup "primary" (init_template_context extTest [] mV).1 = some "uservalue" :=
  c7_user_vars_override extTest [] mV [("primary", "uservalue")] "primary" "uservalue"
    (init_template_context extTest [] mV).1 rfl (by decide) (by decide)

/-- C8: palette generation (given a successfully loaded seed) accepts
exactly the nine variant names, failing on anything else with the error
message that enumerates the valid set before touching the context; it
accepts exactly the themes "dark" and "light", failing on anything else
after having inserted only `source_color`, and it reports no error for
every valid variant/theme combination. -/
theorem c8_variant_theme_validation :
    (∀ (ext : Ext) (wp : RPath) (theme variant : String) (ctx : TemplateContext) (seed : Argb),
      ext.loadSeedColor wp = .ok seed → variant ∉ validVariantNames →
      generate_material_colors ext wp theme variant ctx =
        (ctx, some (invalidVariantMsg variant))) ∧
    (∀ (ext : Ext) (wp : RPath) (theme variant : String) (ctx : TemplateContext) (seed : Argb),
      ext.loadSeedColor wp = .ok seed → variant ∈ validVariantNames →
      theme ≠ "dark" → theme ≠ "light" →
      ∃ v, parseVariant variant = .ok v ∧
        generate_material_colors ext wp theme variant ctx =
          (ctxInsert "source_color" (ext.themeSourceHex seed v) ctx,
           some (invalidThemeMsg theme))) ∧
    (∀ (ext : Ext) (wp : RPath) (theme variant : String) (ctx : TemplateContext) (seed : Argb),
      ext.loadSeedColor wp = .ok seed → variant ∈ validVariantNames →
      (theme = "dark" ∨ theme = "light") →
      (generate_material_colors ext wp theme variant ctx).2 = none) := by
  refine ⟨?_, ?_, ?_⟩
  · intro ext wp theme variant ctx seed hs hv
    simp only [validVariantNames, List.mem_cons, List.not_mem_nil, or_false, not_or] at hv
    obtain ⟨h1, h2, h3, h4, h5, h6, h7, h8, h9⟩ := hv
    simp [generate_material_colors, hs, parseVariant, h1, h2, h3, h4, h5, h6, h7, h8, h9]
  · intro ext wp theme variant ctx seed hs hv hd hl
    simp only [validVariantNames, List.mem_cons, List.not_mem_nil, or_false] at hv
    rcases hv with rfl | rfl | rfl | rfl | rfl | rfl | rfl | rfl | rfl <;>
      exact ⟨_, rfl, by simp [generate_material_colors, hs, parseVariant, hd, hl]⟩
  · intro ext wp theme variant ctx seed hs hv hth
    simp only [validVariantNames, List.mem_cons, List.not_mem_nil, or_false] at hv
    rcases hth with rfl | rfl <;>
      rcases hv with rfl | rfl | rfl | rfl | rfl | rfl | rfl | rfl | rfl <;>
        simp [generate_material_colors, hs, parseVariant]

/-- C8 witness: a rejected variant, a rejected theme, an accepted pair. -/
theorem c8_witness :
    (generate_material_colors extTest ⟨true, ["w.png"]⟩ "dark" "sepia" [] =
      ([], some (invalidVariantMsg "sepia"))) ∧
    (∃ v, parseVariant "tonal_spot" = .ok v ∧
      generate_material_colors extTest ⟨true, ["w.png"]⟩ "gray" "tonal_spot" [] =
        (ctxInsert "source_color" (extTest.themeSourceHex ⟨255, 10, 20, 30⟩ v) [],
         some (invalidThemeMsg "gray"))) ∧
    ((generate_material_colors extTest ⟨true, ["w.png"]⟩ "dark" "tonal_spot" []).2 = none) :=
  ⟨c8_variant_theme_validation.1 extTest ⟨true, ["w.png"]⟩ "dark" "sepia" []
     ⟨255, 10, 20, 30⟩ rfl (by decide),
   c8_variant_theme_validation.2.1 extTest ⟨true, ["w.png"]⟩ "gray" "tonal_spot" []
     ⟨255, 10, 20, 30⟩ rfl (by decide) (by decide) (by decide),
   c8_variant_theme_validation.2.2 extTest ⟨true, ["w.png"]⟩ "dark" "tonal_spot" []
     ⟨255, 10, 20, 30⟩ rfl (by decide) (Or.inl rfl)⟩

/-- C9: every one of the three operations, given a name filter that is not
a key of the manifest's entries map, fails with the "could not find NAME"
error and performs no filesystem side effects at all. -/
theorem c9_unknown_entry (ext : Ext) (m : Manifest) (name : String) (force dry : Bool)
    (h : assocLookup name m.entries = none) :
    syncRun ext m force dry (some name) = ([], some ("could not find " ++ name)) ∧
    linkRun ext m force dry (some name) = ([], some ("could not find " ++ name)) ∧
    generateRun ext m dry (some name) = ([], some ("could not find " ++ name)) := by
  refine ⟨?_, ?_, ?_⟩ <;> simp [syncRun, linkRun, generateRun, h]

/-- C9 witness: the name "missing" is absent from the witness manifest. -/
theorem c9_witness :
    syncRun extTest mT false false (some "missing") =
      ([], some ("could not find " ++ "missing")) ∧
    linkRun extTest mT false false (some "missing") =
      ([], some ("could not find " ++ "missing")) ∧
    generateRun extTest mT false (some "missing") =
      ([], some ("could not find " ++ "missing")) :=
  c9_unknown_entry extTest mT "missing" false false (by decide)

/-- C10: when HOME is unset, path resolution fails for every input path —
absolute or relative, with or without a `~` — because the environment
variable is read before the path is inspected; and with HOME set, a path
whose first component is not exactly `~` (e.g. `~user/file`) is returned
unchanged rather than expanded. -/
theorem c10_home_resolution :
    (∀ p : RPath, resolve_home_dir none p =
      .error "could not find home directory: environment variable not found") ∧
    (∀ (h : RPath) (p : RPath), p.components.head? ≠ some "~" →
      resolve_home_dir (some h) p = .ok p) := by
  constructor
  · intro p; rfl
  · intro h p hp
    obtain ⟨abs, comps⟩ := p
    cases comps with
    | nil => rfl
    | cons c rest =>
      simp only [List.head?_cons, ne_eq, Option.some.injEq] at hp
      simp [resolve_home_dir, hp]

/-- C10 witness: HOME-less resolution fails on an absolute `~`-free path,
and `~other/file` is not expanded. -/
theorem c10_witness :
    (resolve_home_dir none ⟨true, ["etc", "hosts"]⟩ =
      .error "could not find home directory: environment variable not found") ∧
    (resolve_home_dir (some ⟨true, ["home", "user"]⟩) ⟨false, ["~other", "file"]⟩ =
      .ok ⟨false, ["~other", "file"]⟩) :=
  ⟨c10_home_resolution.1 ⟨true, ["etc", "hosts"]⟩,
   c10_home_resolution.2 ⟨true, ["home", "user"]⟩ ⟨false, ["~other", "file"]⟩ (by decide)⟩

end Dotcraft
